import Mathlib

/-!
Verification of the liff-event-bot attendance tracker.

Shallow embedding of the repository's Python code:
- `src/models.py` : pydantic models (enums become string constants, since the
  enums are `str` enums and Firestore stores their string values; documents
  read back from Firestore are dicts, so fields accessed with `.get` are
  modelled as `Option`).
- `src/database.py` : `Database.get_event_statistics` (the classification
  engine), `Database.upsert_user`, `Database._get_max_sort_order`,
  `Database.verify_admin_code`.
- `src/main.py` : `update_event_api` (the event-edit merge, together with the
  pydantic parse of the request body that fills field defaults).

Firestore itself is an external collaborator: query results (the document
looked up by id, the descending-sort_order stream) are passed to the embedded
functions as inputs, and write effects are returned as the resulting document
state, exactly mirroring the read/update calls the Python methods make.
-/

namespace LiffBot

/-- A Firestore user document (`users` collection).  Written via the pydantic
`User` model but read back as a plain dict, so every field the code accesses
with `.get` is an `Option`; `line_id` is accessed with `data['line_id']` and
is assumed present. -/
structure UserDoc where
  line_id : String
  display_name : Option String
  club_name : Option String
  is_admin : Option Bool
  status : Option String
  sort_order : Option Int
deriving DecidableEq

/-- A guest entry inside an attendance document (`models.Guest` dumped to a
dict); the code reads `g.get('adults', 1)` and `g.get('kids', 0)`, so both
counts may be absent. -/
structure GuestDoc where
  name : String
  adults : Option Int
  kids : Option Int
deriving DecidableEq

/-- A participant (attendance) document of an event.  The code reads
`att.get('status')`, `att.get('guests', [])`, `att.get('family_adults', 0)`,
`att.get('family_kids', 0)`; each is an `Option`. -/
structure AttendanceDoc where
  status : Option String
  guests : Option (List GuestDoc)
  family_adults : Option Int
  family_kids : Option Int
deriving DecidableEq

/-- A row of the `going` bucket: `database.py` lines 193-197 append
`{"name": display_name, "guests": guest_count, "guest_details": guests}`.
These are the only keys the dict carries. -/
structure GoingRow where
  name : Option String
  guests : Nat
  guest_details : List GuestDoc
deriving DecidableEq

/-- A row of the `leave` / `not_going` / `no_response` buckets: `{"name": display_name}`. -/
structure NameRow where
  name : Option String
deriving DecidableEq

/-- The `stats` container of `get_event_statistics` (lines 163-168). -/
structure Stats where
  going : List GoingRow
  leave : List NameRow
  not_going : List NameRow
  no_response : List NameRow
deriving DecidableEq

/-- Display name resolution (line 176):
`display_name = user.get('club_name') or user.get('display_name')` — Python
`or` falls through when `club_name` is `None` or the empty string. -/
def resolveName (user : UserDoc) : Option String :=
  match user.club_name with
  | some s => if s = "" then user.display_name else some s
  | none => user.display_name

/-- `total_guests_adults = sum(g.get('adults', 1) for g in guests)` (line 188). -/
def total_guests_adults (guests : List GuestDoc) : Int :=
  (guests.map (fun g => g.adults.getD 1)).sum

/-- `total_guests_kids = sum(g.get('kids', 0) for g in guests)` (line 189). -/
def total_guests_kids (guests : List GuestDoc) : Int :=
  (guests.map (fun g => g.kids.getD 0)).sum

/-- The per-member body of the classification loop (`database.py` lines
171-214): the ordered `if/elif` chain appending one row to one bucket.  In
the GOING branch the source also computes `total_guests_adults`,
`total_guests_kids`, `family_adults`, `family_kids` (lines 188-191) into
local variables, but the appended row (lines 193-197) carries only
`name`, `guests` (the length of the guest list) and `guest_details`;
those aggregate locals are discarded. -/
def classify_member (user : UserDoc) (att : Option AttendanceDoc) (stats : Stats) : Stats :=
  let display_name := resolveName user
  let u_status := user.status
  let e_status := att.bind AttendanceDoc.status
  if e_status = some "GOING" then
    let guests := (att.bind AttendanceDoc.guests).getD []
    let guest_count := guests.length
    { stats with going := stats.going ++ [⟨display_name, guest_count, guests⟩] }
  else if u_status = some "LEAVE" then
    { stats with leave := stats.leave ++ [⟨display_name⟩] }
  else if u_status = some "ACTIVE" ∧ e_status = some "NOT_GOING" then
    { stats with not_going := stats.not_going ++ [⟨display_name⟩] }
  else if u_status = some "ACTIVE" ∧ e_status = none then
    { stats with no_response := stats.no_response ++ [⟨display_name⟩] }
  else if u_status = some "ACTIVE" then
    { stats with no_response := stats.no_response ++ [⟨display_name⟩] }
  else
    stats

/-- `Database.get_event_statistics` (lines 138-216).  The roster input is the
result of the store query filtered to status in {ACTIVE, LEAVE} and ordered
by `sort_order` (lines 144-154); `attendance_map` is the per-event
participants lookup (`attendance_map.get(uid)`, possibly `None`). -/
def get_event_statistics (roster : List UserDoc)
    (attendance_map : String → Option AttendanceDoc) : Stats :=
  roster.foldl (fun stats user => classify_member user (attendance_map user.line_id) stats)
    ⟨[], [], [], []⟩

/-- The bucket assigned to a member: one of the four buckets of the decision
list, or `none` when the member falls through every rule (possible only when
the status is neither ACTIVE nor LEAVE and there is no GOING response).
Derived from the same `if/elif` chain as `classify_member`. -/
inductive Bucket where
  | going
  | leave
  | not_going
  | no_response
deriving DecidableEq

/-- Which bucket (if any) the decision list of `classify_member` sends a
member to. -/
def bucketOf (user : UserDoc) (att : Option AttendanceDoc) : Option Bucket :=
  let e_status := att.bind AttendanceDoc.status
  if e_status = some "GOING" then some Bucket.going
  else if user.status = some "LEAVE" then some Bucket.leave
  else if user.status = some "ACTIVE" ∧ e_status = some "NOT_GOING" then some Bucket.not_going
  else if user.status = some "ACTIVE" ∧ e_status = none then some Bucket.no_response
  else if user.status = some "ACTIVE" then some Bucket.no_response
  else none

/-- A LINE profile as handed to `Database.upsert_user` (`profile.user_id`,
`profile.display_name`). -/
structure Profile where
  user_id : String
  display_name : String
deriving DecidableEq

/-- `Database._get_max_sort_order` (lines 47-52).  Its input is the result of
the store query `order_by('sort_order', descending).limit(1)`, passed here as
the stream of documents; the `for` loop returns on the first document with
`user.to_dict().get('sort_order', 999)`, and an empty stream yields 0. -/
def get_max_sort_order (stream : List UserDoc) : Int :=
  match stream with
  | [] => 0
  | u :: _ => u.sort_order.getD 999

/-- Outcome of `Database.upsert_user`: the value returned to the caller and
the state of the user's document after the call. -/
structure UpsertOutcome where
  ret : UserDoc
  stored : UserDoc
deriving DecidableEq

/-- `Database.upsert_user` (lines 27-45).  `doc` is the result of
`user_ref.get()` (the document before the call, `none` when absent);
`stream` is the descending-sort_order query result consumed by
`_get_max_sort_order`.  When the document is absent, a new `User` is built
with the pydantic defaults (`club_name=None`, `is_admin=False`,
`status=ACTIVE`) and `sort_order = max_order + 1`, and `set` writes it;
the dump of that new user is returned.  When the document exists, `update`
overwrites only `display_name`, and the function returns `doc.to_dict()` —
the snapshot taken BEFORE the update. -/
def upsert_user (doc : Option UserDoc) (stream : List UserDoc) (profile : Profile) :
    UpsertOutcome :=
  match doc with
  | none =>
      let max_order := get_max_sort_order stream
      let new_user : UserDoc :=
        { line_id := profile.user_id
          display_name := some profile.display_name
          club_name := none
          is_admin := some false
          status := some "ACTIVE"
          sort_order := some (max_order + 1) }
      ⟨new_user, new_user⟩
  | some d =>
      ⟨d, { d with display_name := some profile.display_name }⟩

/-- `Database.verify_admin_code` (lines 54-59).  `admin_setup_code` is the
configured secret (`config.ADMIN_SETUP_CODE`); `stored` is the member's
document.  On a match the document's `is_admin` field is set to `True` and
the function returns `True`; otherwise it returns `False` without writing. -/
def verify_admin_code (admin_setup_code : String) (code : String) (stored : UserDoc) :
    Bool × UserDoc :=
  if code = admin_setup_code then
    (true, { stored with is_admin := some true })
  else
    (false, stored)

/-- A Firestore event document, with the fields of `models.Event`.  Dates and
times are strings; `created_at` is modelled as an integer timestamp. -/
structure EventDoc where
  id : Option String
  type : String
  title : String
  event_date : String
  event_time : String
  location : String
  talk_title : Option String
  speaker : Option String
  description : Option String
  status : String
  created_at : Int
deriving DecidableEq

/-- The body of a PUT `/api/admin/events/{event_id}` request, before pydantic
validation.  `type`, `title`, `event_date`, `event_time`, `location` are
required fields of `models.Event` (a body missing one is rejected with 422
and no update happens, so here they are plain values).  `id`, `talk_title`,
`speaker`, `description` are `Optional[str] = None`: `none` covers both an
absent field and an explicit null.  `status` has the non-null default
`EventStatus.DRAFT` and `created_at` the non-null default `datetime.now()`
(evaluated once at class-definition time), so for them `none` means the field
was absent from the request (an explicit null is rejected by validation). -/
structure EventEditRequest where
  id : Option String
  type : String
  title : String
  event_date : String
  event_time : String
  location : String
  talk_title : Option String
  speaker : Option String
  description : Option String
  status : Option String
  created_at : Option Int
deriving DecidableEq

/-- The pydantic parse of the request body into an `Event`
(`models.py` lines 38-52): absent `status` becomes `DRAFT`, absent
`created_at` becomes the model's default timestamp. -/
def parseEventBody (req : EventEditRequest) (default_created_at : Int) : EventDoc :=
  { id := req.id
    type := req.type
    title := req.title
    event_date := req.event_date
    event_time := req.event_time
    location := req.location
    talk_title := req.talk_title
    speaker := req.speaker
    description := req.description
    status := req.status.getD "DRAFT"
    created_at := req.created_at.getD default_created_at }

/-- `update_event_api` (`main.py` lines 89-94) followed by
`Database.update_event` (line 93): `update_data` keeps the non-`None`
entries of `event.model_dump()` and the Firestore `update` overwrites exactly
those keys of the stored document. -/
def update_event_api (req : EventEditRequest) (default_created_at : Int)
    (stored : EventDoc) : EventDoc :=
  let e := parseEventBody req default_created_at
  { id := match e.id with | some v => some v | none => stored.id
    type := e.type
    title := e.title
    event_date := e.event_date
    event_time := e.event_time
    location := e.location
    talk_title := match e.talk_title with | some v => some v | none => stored.talk_title
    speaker := match e.speaker with | some v => some v | none => stored.speaker
    description := match e.description with | some v => some v | none => stored.description
    status := e.status
    created_at := e.created_at }

/-- Total number of rows across the four buckets. -/
def totalLen (s : Stats) : Nat :=
  s.going.length + s.leave.length + s.not_going.length + s.no_response.length

theorem classify_member_going_len (user : UserDoc) (att : Option AttendanceDoc)
    (stats : Stats) :
    (classify_member user att stats).going.length =
      stats.going.length + (if bucketOf user att = some Bucket.going then 1 else 0) := by
  simp only [classify_member, bucketOf]
  split_ifs <;> simp_all

theorem classify_member_leave_len (user : UserDoc) (att : Option AttendanceDoc)
    (stats : Stats) :
    (classify_member user att stats).leave.length =
      stats.leave.length + (if bucketOf user att = some Bucket.leave then 1 else 0) := by
  simp only [classify_member, bucketOf]
  split_ifs <;> simp_all

theorem classify_member_not_going_len (user : UserDoc) (att : Option AttendanceDoc)
    (stats : Stats) :
    (classify_member user att stats).not_going.length =
      stats.not_going.length + (if bucketOf user att = some Bucket.not_going then 1 else 0) := by
  simp only [classify_member, bucketOf]
  split_ifs <;> simp_all

theorem classify_member_no_response_len (user : UserDoc) (att : Option AttendanceDoc)
    (stats : Stats) :
    (classify_member user att stats).no_response.length =
      stats.no_response.length +
        (if bucketOf user att = some Bucket.no_response then 1 else 0) := by
  simp only [classify_member, bucketOf]
  split_ifs <;> simp_all

theorem classify_member_total_len (user : UserDoc) (att : Option AttendanceDoc)
    (stats : Stats) (h : user.status = some "ACTIVE" ∨ user.status = some "LEAVE") :
    totalLen (classify_member user att stats) = totalLen stats + 1 := by
  simp only [classify_member, totalLen]
  split_ifs with h1 h2 h3 h4 h5 <;> simp <;> try omega
  rcases h with h | h
  · exact absurd h h5
  · exact absurd h h2

theorem bucketOf_isSome (user : UserDoc) (att : Option AttendanceDoc)
    (h : user.status = some "ACTIVE" ∨ user.status = some "LEAVE") :
    ∃ b : Bucket, bucketOf user att = some b := by
  simp only [bucketOf]
  split_ifs with h1 h2 h3 h4 h5
  · exact ⟨Bucket.going, rfl⟩
  · exact ⟨Bucket.leave, rfl⟩
  · exact ⟨Bucket.not_going, rfl⟩
  · exact ⟨Bucket.no_response, rfl⟩
  · exact ⟨Bucket.no_response, rfl⟩
  · rcases h with h | h
    · exact absurd h h5
    · exact absurd h h2

theorem stats_foldl_going_len (am : String → Option AttendanceDoc) :
    ∀ (roster : List UserDoc) (s : Stats),
      ((roster.foldl (fun stats user => classify_member user (am user.line_id) stats) s).going.length
        = s.going.length
          + (roster.filter (fun u => bucketOf u (am u.line_id) = some Bucket.going)).length)
  | [], s => by simp
  | u :: rest, s => by
    rw [List.foldl_cons, stats_foldl_going_len am rest, classify_member_going_len,
      List.filter_cons]
    split_ifs with h1 h2 h2 <;> simp_all <;> omega

theorem stats_foldl_leave_len (am : String → Option AttendanceDoc) :
    ∀ (roster : List UserDoc) (s : Stats),
      ((roster.foldl (fun stats user => classify_member user (am user.line_id) stats) s).leave.length
        = s.leave.length
          + (roster.filter (fun u => bucketOf u (am u.line_id) = some Bucket.leave)).length)
  | [], s => by simp
  | u :: rest, s => by
    rw [List.foldl_cons, stats_foldl_leave_len am rest, classify_member_leave_len,
      List.filter_cons]
    split_ifs with h1 h2 h2 <;> simp_all <;> omega

theorem stats_foldl_not_going_len (am : String → Option AttendanceDoc) :
    ∀ (roster : List UserDoc) (s : Stats),
      ((roster.foldl (fun stats user => classify_member user (am user.line_id) stats) s).not_going.length
        = s.not_going.length
          + (roster.filter (fun u => bucketOf u (am u.line_id) = some Bucket.not_going)).length)
  | [], s => by simp
  | u :: rest, s => by
    rw [List.foldl_cons, stats_foldl_not_going_len am rest, classify_member_not_going_len,
      List.filter_cons]
    split_ifs with h1 h2 h2 <;> simp_all <;> omega

theorem stats_foldl_no_response_len (am : String → Option AttendanceDoc) :
    ∀ (roster : List UserDoc) (s : Stats),
      ((roster.foldl (fun stats user => classify_member user (am user.line_id) stats) s).no_response.length
        = s.no_response.length
          + (roster.filter (fun u => bucketOf u (am u.line_id) = some Bucket.no_response)).length)
  | [], s => by simp
  | u :: rest, s => by
    rw [List.foldl_cons, stats_foldl_no_response_len am rest, classify_member_no_response_len,
      List.filter_cons]
    split_ifs with h1 h2 h2 <;> simp_all <;> omega

theorem stats_foldl_total_len (am : String → Option AttendanceDoc) :
    ∀ (roster : List UserDoc) (s : Stats),
      (∀ u ∈ roster, u.status = some "ACTIVE" ∨ u.status = some "LEAVE") →
      totalLen (roster.foldl (fun stats user => classify_member user (am user.line_id) stats) s)
        = totalLen s + roster.length
  | [], s, _ => by simp
  | u :: rest, s, h => by
    rw [List.foldl_cons,
      stats_foldl_total_len am rest _ (fun v hv => h v (List.mem_cons_of_mem u hv)),
      classify_member_total_len _ _ _ (h u (List.mem_cons_self u rest))]
    simp
    omega

/-- Scenario A guest: one guest entry with adults 2, kids 1. -/
def guestA : GuestDoc := ⟨"G", some 2, some 1⟩

/-- Scenario A member 1: ACTIVE, responded GOING with one guest. -/
def memberA1 : UserDoc := ⟨"u1", some "M1", none, some false, some "ACTIVE", some 1⟩

/-- Scenario A member 2: LEAVE, no response. -/
def memberA2 : UserDoc := ⟨"u2", some "M2", none, some false, some "LEAVE", some 2⟩

/-- Scenario A member 3: ACTIVE, no response. -/
def memberA3 : UserDoc := ⟨"u3", some "M3", none, some false, some "ACTIVE", some 3⟩

/-- Scenario A roster, in sort order. -/
def rosterA : List UserDoc := [memberA1, memberA2, memberA3]

/-- Scenario A attendance of member 1: GOING with guest `guestA`. -/
def attA1 : AttendanceDoc := ⟨some "GOING", some [guestA], none, none⟩

/-- Scenario A response mapping: only member u1 responded. -/
def amA : String → Option AttendanceDoc :=
  fun uid => if uid = "u1" then some attA1 else none

/-- An attendance document with status NOT_GOING (Scenario B). -/
def attNotGoing : AttendanceDoc := ⟨some "NOT_GOING", none, none, none⟩

/-- C1: for a roster containing only ACTIVE or LEAVE members and any response
mapping, each bucket of `get_event_statistics` holds exactly the members the
decision list assigns to it, the four bucket sizes sum to the roster size
(no member omitted, none duplicated), and every member is assigned exactly
one of the four buckets. -/
theorem classification_partition (roster : List UserDoc)
    (am : String → Option AttendanceDoc)
    (h : ∀ u ∈ roster, u.status = some "ACTIVE" ∨ u.status = some "LEAVE") :
    (get_event_statistics roster am).going.length
        = (roster.filter (fun u => bucketOf u (am u.line_id) = some Bucket.going)).length
    ∧ (get_event_statistics roster am).leave.length
        = (roster.filter (fun u => bucketOf u (am u.line_id) = some Bucket.leave)).length
    ∧ (get_event_statistics roster am).not_going.length
        = (roster.filter (fun u => bucketOf u (am u.line_id) = some Bucket.not_going)).length
    ∧ (get_event_statistics roster am).no_response.length
        = (roster.filter (fun u => bucketOf u (am u.line_id) = some Bucket.no_response)).length
    ∧ (get_event_statistics roster am).going.length
        + (get_event_statistics roster am).leave.length
        + (get_event_statistics roster am).not_going.length
        + (get_event_statistics roster am).no_response.length = roster.length
    ∧ ∀ u ∈ roster, ∃! b : Bucket, bucketOf u (am u.line_id) = some b := by
  refine ⟨?_, ?_, ?_, ?_, ?_, ?_⟩
  · simpa [get_event_statistics] using stats_foldl_going_len am roster ⟨[], [], [], []⟩
  · simpa [get_event_statistics] using stats_foldl_leave_len am roster ⟨[], [], [], []⟩
  · simpa [get_event_statistics] using stats_foldl_not_going_len am roster ⟨[], [], [], []⟩
  · simpa [get_event_statistics] using stats_foldl_no_response_len am roster ⟨[], [], [], []⟩
  · have ht := stats_foldl_total_len am roster ⟨[], [], [], []⟩ h
    simp only [get_event_statistics, totalLen, List.length_nil] at ht ⊢
    omega
  · intro u hu
    obtain ⟨b, hb⟩ := bucketOf_isSome u (am u.line_id) (h u hu)
    refine ⟨b, hb, fun y hy => ?_⟩
    rw [hb] at hy
    exact (Option.some.inj hy).symm

/-- C1 witness: the partition theorem applied to the Scenario A roster and
response mapping — the four bucket sizes sum to the roster size 3. -/
theorem classification_partition_witness :
    (get_event_statistics rosterA amA).going.length
        + (get_event_statistics rosterA amA).leave.length
        + (get_event_statistics rosterA amA).not_going.length
        + (get_event_statistics rosterA amA).no_response.length = rosterA.length :=
  (classification_partition rosterA amA (by decide)).2.2.2.2.1

/-- C2 (code bug): evaluating the engine on Scenario A — u1 ACTIVE responded
GOING with one guest (adults 2, kids 1), u2 LEAVE, u3 ACTIVE unresponsive.
The going row carries only the name, the guest entry count 1 and the raw
guest list; the aggregates the source computes on lines 188-191
(`total_guests_adults` = 2, `total_guests_kids` = 1, and the family counts)
are bound to local variables that never reach the appended row. -/
theorem going_row_drops_aggregates :
    get_event_statistics rosterA amA
      = ⟨[⟨some "M1", 1, [guestA]⟩], [⟨some "M2"⟩], [], [⟨some "M3"⟩]⟩
    ∧ total_guests_adults [guestA] = 2
    ∧ total_guests_kids [guestA] = 1 := by
  refine ⟨by decide, by decide, by decide⟩

/-- C3: a LEAVE member with a NOT_GOING response is appended to the leave
bucket, the not_going bucket is left unchanged, and the decision list
assigns the leave bucket. -/
theorem leave_precedence (user : UserDoc) (att : AttendanceDoc) (stats : Stats)
    (hu : user.status = some "LEAVE") (ha : att.status = some "NOT_GOING") :
    (classify_member user (some att) stats).leave = stats.leave ++ [⟨resolveName user⟩]
    ∧ (classify_member user (some att) stats).not_going = stats.not_going
    ∧ bucketOf user (some att) = some Bucket.leave := by
  refine ⟨?_, ?_, ?_⟩ <;> simp [classify_member, bucketOf, ha, hu]

/-- C3 witness: the precedence theorem at the Scenario B member — LEAVE
member u2 with a NOT_GOING response lands in leave, not in not_going. -/
theorem leave_precedence_witness :
    (classify_member memberA2 (some attNotGoing) ⟨[], [], [], []⟩).leave
        = (⟨[], [], [], []⟩ : Stats).leave ++ [⟨resolveName memberA2⟩]
    ∧ (classify_member memberA2 (some attNotGoing) ⟨[], [], [], []⟩).not_going
        = (⟨[], [], [], []⟩ : Stats).not_going
    ∧ bucketOf memberA2 (some attNotGoing) = some Bucket.leave :=
  leave_precedence memberA2 attNotGoing ⟨[], [], [], []⟩ (by decide) (by decide)

/-- C4: a member with a GOING response is appended to the going bucket
whatever the membership status — the rule does not look at it — and the
decision list assigns the going bucket. -/
theorem going_override (user : UserDoc) (att : AttendanceDoc) (stats : Stats)
    (ha : att.status = some "GOING") :
    (classify_member user (some att) stats).going
        = stats.going ++ [⟨resolveName user, (att.guests.getD []).length, att.guests.getD []⟩]
    ∧ bucketOf user (some att) = some Bucket.going := by
  refine ⟨?_, ?_⟩ <;> simp [classify_member, bucketOf, ha]

/-- C4 witness: the override theorem at the LEAVE member u2 with a GOING
response — the member still lands in going. -/
theorem going_override_witness :
    (classify_member memberA2 (some attA1) ⟨[], [], [], []⟩).going
        = (⟨[], [], [], []⟩ : Stats).going
            ++ [⟨resolveName memberA2, (attA1.guests.getD []).length, attA1.guests.getD []⟩]
    ∧ bucketOf memberA2 (some attA1) = some Bucket.going :=
  going_override memberA2 attA1 ⟨[], [], [], []⟩ (by decide)

/-- C5: in the guest aggregation, a guest entry whose adults field is absent
contributes exactly 1 to the adults total, and one whose kids field is
absent contributes exactly 0 to the kids total. -/
theorem guest_default_contribution (l1 l2 : List GuestDoc) (g : GuestDoc) :
    (g.adults = none →
      total_guests_adults (l1 ++ g :: l2) = total_guests_adults (l1 ++ l2) + 1)
    ∧ (g.kids = none →
      total_guests_kids (l1 ++ g :: l2) = total_guests_kids (l1 ++ l2) + 0) := by
  constructor <;> intro h <;>
    simp [total_guests_adults, total_guests_kids, h] <;> ring

/-- C5 witness: the default-contribution theorem at the bare guest entry
`{name: "X"}` — it adds 1 adult and 0 kids. -/
theorem guest_default_contribution_witness :
    total_guests_adults ([] ++ (⟨"X", none, none⟩ : GuestDoc) :: []) = total_guests_adults ([] ++ []) + 1
    ∧ total_guests_kids ([] ++ (⟨"X", none, none⟩ : GuestDoc) :: []) = total_guests_kids ([] ++ []) + 0 :=
  ⟨(guest_default_contribution [] [] ⟨"X", none, none⟩).1 rfl,
   (guest_default_contribution [] [] ⟨"X", none, none⟩).2 rfl⟩

/-- A first profile contacting the bot (Scenario C). -/
def profileC1 : Profile := ⟨"c1", "Alice"⟩

/-- A second profile contacting the bot (Scenario C). -/
def profileC2 : Profile := ⟨"c2", "Bob"⟩

/-- C6 (counterexample): with an empty roster — the max query stream is
empty, so `_get_max_sort_order` returns its base 0 — the first-ever member
is created with sort order 0 + 1 = 1, not 0 as the claim states. -/
theorem first_member_sort_order_cex :
    (upsert_user none [] profileC1).stored.sort_order = some 1
    ∧ (upsert_user none [] profileC1).stored.sort_order ≠ some 0 := by
  refine ⟨by decide, by decide⟩

/-- C6 (amended): a member created by `upsert_user` receives sort order
`_get_max_sort_order` result + 1; the empty stream yields base 0, so the
first-ever member receives sort order 1, and a second new member — with the
first member now heading the descending stream — receives 2. -/
theorem new_member_sort_order :
    (∀ (stream : List UserDoc) (p : Profile),
      (upsert_user none stream p).stored.sort_order
        = some (get_max_sort_order stream + 1))
    ∧ (upsert_user none [] profileC1).stored.sort_order = some 1
    ∧ (upsert_user none [(upsert_user none [] profileC1).stored] profileC2).stored.sort_order
        = some 2 := by
  refine ⟨fun stream p => rfl, by decide, by decide⟩

/-- An existing member document before a refresh. -/
def storedOld : UserDoc := ⟨"u7", some "OldName", some "Nick", some false, some "ACTIVE", some 5⟩

/-- A refreshed LINE profile for the same member, with a new display name. -/
def profileNew : Profile := ⟨"u7", "NewName"⟩

/-- C7 (counterexample): for an existing member, `upsert_user` writes the new
display name to the store but returns `doc.to_dict()` of the snapshot taken
before the update — the returned record carries the old display name, not
the refreshed one. -/
theorem upsert_return_cex :
    (upsert_user (some storedOld) [] profileNew).stored.display_name = some "NewName"
    ∧ (upsert_user (some storedOld) [] profileNew).ret.display_name = some "OldName"
    ∧ (upsert_user (some storedOld) [] profileNew).ret.display_name
        ≠ some profileNew.display_name := by
  refine ⟨by decide, by decide, by decide⟩

/-- C7 (amended): for an existing member only the display name is overwritten
in the store — nickname, status, sort order, admin flag and id are all
preserved — and the function returns the pre-update document snapshot, whose
display name is the old, not the refreshed, one. -/
theorem upsert_existing_frame (d : UserDoc) (stream : List UserDoc) (p : Profile) :
    (upsert_user (some d) stream p).stored.display_name = some p.display_name
    ∧ (upsert_user (some d) stream p).stored.club_name = d.club_name
    ∧ (upsert_user (some d) stream p).stored.status = d.status
    ∧ (upsert_user (some d) stream p).stored.sort_order = d.sort_order
    ∧ (upsert_user (some d) stream p).stored.is_admin = d.is_admin
    ∧ (upsert_user (some d) stream p).stored.line_id = d.line_id
    ∧ (upsert_user (some d) stream p).ret = d :=
  ⟨rfl, rfl, rfl, rfl, rfl, rfl, rfl⟩

/-- C9: the admin promotion sets the member's admin flag and returns true
exactly when the submitted code equals the configured secret; on a mismatch
it returns false and the stored record is unchanged. -/
theorem verify_admin_code_correct (secret code : String) (u : UserDoc) :
    ((verify_admin_code secret code u).1 = true ↔ code = secret)
    ∧ (code = secret →
        (verify_admin_code secret code u).2 = { u with is_admin := some true })
    ∧ (code ≠ secret → (verify_admin_code secret code u).2 = u) := by
  unfold verify_admin_code
  split_ifs with h <;> simp_all

/-- C9 witness: the promotion theorem at the default secret 8888 — the wrong
code 1234 leaves the record unchanged, the right code returns true. -/
theorem verify_admin_code_witness :
    (verify_admin_code "8888" "1234" storedOld).2 = storedOld
    ∧ (verify_admin_code "8888" "8888" storedOld).1 = true :=
  ⟨(verify_admin_code_correct "8888" "1234" storedOld).2.2 (by decide),
   ((verify_admin_code_correct "8888" "8888" storedOld).1).mpr rfl⟩

/-- C10: when the descending-sort_order query stream is non-empty but its
head document lacks the sort_order field, `_get_max_sort_order` falls back
to the default 999, and the next member created by `upsert_user` is assigned
sort order 1000. -/
theorem missing_sort_order_default (u : UserDoc) (rest : List UserDoc) (p : Profile)
    (h : u.sort_order = none) :
    get_max_sort_order (u :: rest) = 999
    ∧ (upsert_user none (u :: rest) p).stored.sort_order = some 1000 := by
  refine ⟨?_, ?_⟩ <;> simp [get_max_sort_order, upsert_user, h]

/-- A head-of-stream document missing its sort_order field. -/
def headNoSort : UserDoc := ⟨"u9", some "N", none, none, some "ACTIVE", none⟩

/-- C10 witness: the default theorem at a concrete one-document stream whose
document has no sort_order — the lookup yields 999 and the next member gets
1000. -/
theorem missing_sort_order_default_witness :
    get_max_sort_order [headNoSort] = 999
    ∧ (upsert_user none [headNoSort] profileC1).stored.sort_order = some 1000 :=
  missing_sort_order_default headNoSort [] profileC1 rfl

/-- A stored event that has been published. -/
def storedPublished : EventDoc :=
  ⟨some "e1", "meeting", "Title", "2026-01-01", "19:00", "Hall",
   none, none, none, "PUBLISHED", 100⟩

/-- An edit request supplying the required fields but omitting status (and
created_at): pydantic fills the defaults DRAFT and the model timestamp. -/
def reqNoStatus : EventEditRequest :=
  ⟨none, "meeting", "New title", "2026-01-02", "19:30", "Hall",
   none, none, none, none, none⟩

/-- C8 (counterexample): an edit request that omits the status field does not
leave the stored status untouched — pydantic fills the non-null default
DRAFT, it survives the None-filter of `update_event_api`, and it overwrites
the stored PUBLISHED status. -/
theorem edit_absent_status_cex :
    reqNoStatus.status = none
    ∧ storedPublished.status = "PUBLISHED"
    ∧ (update_event_api reqNoStatus 0 storedPublished).status = "DRAFT"
    ∧ (update_event_api reqNoStatus 0 storedPublished).status
        ≠ storedPublished.status := by
  refine ⟨by decide, by decide, by decide, by decide⟩

/-- C8 (amended): the edit merges only the non-null entries of the parsed
body into the stored Event — the optional fields (id, talk title, speaker,
description) that are absent or null are left with their stored values and
supplied ones overwrite — but the required fields are always written, and
status and created_at, which the model fills with the non-null defaults
DRAFT and the model timestamp when absent, always overwrite the stored
values. -/
theorem edit_merge (req : EventEditRequest) (t : Int) (stored : EventDoc) :
    (req.talk_title = none →
      (update_event_api req t stored).talk_title = stored.talk_title)
    ∧ (∀ v, req.talk_title = some v → (update_event_api req t stored).talk_title = some v)
    ∧ (req.speaker = none → (update_event_api req t stored).speaker = stored.speaker)
    ∧ (∀ v, req.speaker = some v → (update_event_api req t stored).speaker = some v)
    ∧ (req.description = none →
        (update_event_api req t stored).description = stored.description)
    ∧ (∀ v, req.description = some v →
        (update_event_api req t stored).description = some v)
    ∧ (req.id = none → (update_event_api req t stored).id = stored.id)
    ∧ (∀ v, req.id = some v → (update_event_api req t stored).id = some v)
    ∧ (update_event_api req t stored).title = req.title
    ∧ (update_event_api req t stored).status = req.status.getD "DRAFT"
    ∧ (update_event_api req t stored).created_at = req.created_at.getD t := by
  refine ⟨fun h => ?_, fun v h => ?_, fun h => ?_, fun v h => ?_, fun h => ?_,
    fun v h => ?_, fun h => ?_, fun v h => ?_, rfl, rfl, rfl⟩ <;>
    simp [update_event_api, parseEventBody, h]

/-- C8 witness: the merge theorem at the concrete omit-status request and the
published stored event — the absent talk title is preserved while the status
is overwritten with the DRAFT default. -/
theorem edit_merge_witness :
    (update_event_api reqNoStatus 0 storedPublished).talk_title
        = storedPublished.talk_title
    ∧ (update_event_api reqNoStatus 0 storedPublished).status
        = reqNoStatus.status.getD "DRAFT" :=
  ⟨(edit_merge reqNoStatus 0 storedPublished).1 rfl,
   (edit_merge reqNoStatus 0 storedPublished).2.2.2.2.2.2.2.2.2.1⟩

end LiffBot
